import Mathlib

/-!
# Verification of the Dify chat frontend

Shallow embedding of the two React components of the repository:

* `src/frontend/dify_chat_frontend/src/App.tsx` — the chat UI
  (`fetchChatHistory`, `sendMessage` and the component state held in the
  `useState` hooks `messages`, `input`, `isLoading`, `conversationId`);
* `src/frontend/dify_chat_frontend/src/pages/SlackIntegration.tsx` — the
  Slack landing page (`fetchInstallUrl` and its `installUrl`, `isLoading`,
  `error` state, plus the render function's three branches).

Timestamps: the code stores timestamps as strings and compares them through
`new Date(ts).getTime()`; we embed a timestamp as the integer returned by
that conversion.  A JSON string field that may be absent (`undefined`) is
embedded as an `Option`; JavaScript's falsy test `!s` on such a field is
`undefined` or the empty string.  The network is embedded as an explicit
outcome parameter: a fetch either fails at the network level, returns a
non-2xx status, or returns a parsed JSON body.
-/

/-- Message role, from the `Message` interface of `App.tsx`
(`role: 'user' | 'assistant'`). -/
inductive Role where
  | user
  | assistant
deriving DecidableEq, Repr

/-- The `Message` interface of `App.tsx`.  `timestamp` is optional because
the assistant message built on the success path of `sendMessage` copies
`data.timestamp`, which the code never validates and which may be absent
from the response. -/
structure Message where
  role : Role
  content : String
  timestamp : Option Int
deriving DecidableEq, Repr

/-- One row of the `/api/chat/history` response body, as the code reads it:
`msg.user_message`, `msg.assistant_message`, `msg.timestamp`,
`msg.conversation_id`. -/
structure HistoryRow where
  user_message : String
  assistant_message : String
  timestamp : Int
  conversation_id : String
deriving DecidableEq, Repr

/-- The component state of `App` held in its four `useState` hooks. -/
structure ChatState where
  messages : List Message
  input : String
  isLoading : Bool
  conversationId : Option String
deriving DecidableEq, Repr

/-- The initial state of the `App` component:
`useState<Message[]>([])`, `useState('')`, `useState(false)`,
`useState<string | null>(null)`. -/
def initChatState : ChatState :=
  { messages := [], input := "", isLoading := false, conversationId := none }

/-- Parsed JSON body of the history response.  `arr` is a JSON array of
rows; `nonArray` is any other JSON value (for which `Array.isArray data`
is false), e.g. the object with a `conversations` key documented in
`API_SPEC.md`. -/
inductive HistoryBody where
  | arr (rows : List HistoryRow)
  | nonArray
deriving DecidableEq, Repr

/-- Outcome of the `fetch` in `fetchChatHistory`: a network-level failure
(the promise rejects), a non-2xx response (`!response.ok`), or an OK
response with a parsed JSON body. -/
inductive FetchHistoryOutcome where
  | networkError
  | httpError (status : Nat)
  | ok (body : HistoryBody)
deriving DecidableEq, Repr

/-- Ordering of history rows used by the sort in `fetchChatHistory`:
`(a, b) => new Date(a.timestamp).getTime() - new Date(b.timestamp).getTime()`,
i.e. ascending by timestamp. -/
def rowLe (a b : HistoryRow) : Prop :=
  a.timestamp ≤ b.timestamp

instance : DecidableRel rowLe := fun a b =>
  inferInstanceAs (Decidable (a.timestamp ≤ b.timestamp))

instance : IsTotal HistoryRow rowLe := ⟨fun a b => Int.le_total a.timestamp b.timestamp⟩

instance : IsTrans HistoryRow rowLe := ⟨fun _ _ _ h1 h2 => le_trans h1 h2⟩

/-- `[...data].sort((a, b) => ...)` of `fetchChatHistory`: a stable sort of
the rows ascending by timestamp (JavaScript `Array.prototype.sort` is
stable), embedded as insertion sort. -/
def sortRows (rows : List HistoryRow) : List HistoryRow :=
  rows.insertionSort rowLe

/-- The pair a single history row is flattened into by `fetchChatHistory`:
a user message carrying `msg.user_message` followed by an assistant message
carrying `msg.assistant_message`, both stamped with `msg.timestamp`. -/
def rowToMessages (r : HistoryRow) : List Message :=
  [ { role := Role.user, content := r.user_message, timestamp := some r.timestamp },
    { role := Role.assistant, content := r.assistant_message, timestamp := some r.timestamp } ]

/-- `sortedData.map(msg => [...]).flat()` of `fetchChatHistory`. -/
def formatMessages (rows : List HistoryRow) : List Message :=
  (rows.map rowToMessages).flatten

/-- `fetchChatHistory` of `App.tsx` as a state transformer.  On a network
error or a non-2xx status the thrown error is caught and only logged, so
the state is unchanged; on a non-array body the function returns early; on
an array body it sorts the rows ascending by timestamp, flattens them into
messages, and sets the conversation id from the last sorted row (only when
the array is non-empty). -/
def fetchChatHistory (s : ChatState) (o : FetchHistoryOutcome) : ChatState :=
  match o with
  | FetchHistoryOutcome.networkError => s
  | FetchHistoryOutcome.httpError _ => s
  | FetchHistoryOutcome.ok HistoryBody.nonArray => s
  | FetchHistoryOutcome.ok (HistoryBody.arr rows) =>
    let sortedData := sortRows rows
    let formattedMessages := formatMessages sortedData
    { s with
      messages := formattedMessages
      conversationId :=
        match sortedData.getLast? with
        | some last => some last.conversation_id
        | none => s.conversationId }

/-- The parsed JSON body of a `/api/chat` response, as `sendMessage` reads
it (`data.conversation_id`, `data.message`, `data.timestamp`).  Each field
is optional: the code only checks `message` and `conversation_id` for
falsiness. -/
structure ChatResponse where
  conversation_id : Option String
  message : Option String
  timestamp : Option Int
deriving DecidableEq, Repr

/-- Outcome of the `fetch` in `sendMessage`. -/
inductive SendOutcome where
  | networkError
  | httpError (status : Nat)
  | ok (data : ChatResponse)
deriving DecidableEq, Repr

/-- The body of the POST request issued by `sendMessage`:
`{ message: input, conversation_id: conversationId }`. -/
structure ChatRequest where
  message : String
  conversation_id : Option String
deriving DecidableEq, Repr

/-- The fixed localized fallback text appended by the catch branch of
`sendMessage`. -/
def fallbackText : String :=
  "メッセージの送信中にエラーが発生しました。もう一度お試しください。"

/-- JavaScript `String.prototype.trim`: drop leading and trailing
whitespace.  (We model the whitespace set by `Char.isWhitespace`, which
covers the ASCII whitespace characters relevant here.) -/
def jsTrim (s : String) : String :=
  ⟨((s.data.dropWhile Char.isWhitespace).reverse.dropWhile Char.isWhitespace).reverse⟩

/-- The synchronous prefix of `sendMessage`, up to and including issuing the
network request.  Returns `none` when `!input.trim()` causes the early
return (no request is made and no state is touched); otherwise appends the
optimistic user message carrying the raw input, clears the input, sets the
loading flag, and returns the request body built from the raw input and the
current conversation id.  `now` is `new Date().toISOString()` of the user
message. -/
def sendMessagePre (s : ChatState) (now : Int) : Option (ChatState × ChatRequest) :=
  if jsTrim s.input = "" then
    none
  else
    let userMessage : Message :=
      { role := Role.user, content := s.input, timestamp := some now }
    some
      ( { s with
          messages := s.messages ++ [userMessage]
          input := ""
          isLoading := true },
        { message := s.input, conversation_id := s.conversationId } )

/-- The catch branch of `sendMessage` followed by the finally branch:
append the fixed fallback assistant message and clear the loading flag.
`errNow` is `new Date().toISOString()` of the error message. -/
def appendSendError (s : ChatState) (errNow : Int) : ChatState :=
  { s with
    messages := s.messages ++
      [ { role := Role.assistant, content := fallbackText, timestamp := some errNow } ]
    isLoading := false }

/-- The continuation of `sendMessage` after the request resolves, applied to
the intermediate state produced by `sendMessagePre`.  A network error or a
non-2xx status throws into the catch branch; so does an OK response whose
`message` or `conversation_id` is falsy (absent or the empty string).
Otherwise the conversation id is updated and the assistant reply appended;
the finally branch clears the loading flag in every case. -/
def resolveSend (s : ChatState) (errNow : Int) (o : SendOutcome) : ChatState :=
  match o with
  | SendOutcome.networkError => appendSendError s errNow
  | SendOutcome.httpError _ => appendSendError s errNow
  | SendOutcome.ok data =>
    match data.message, data.conversation_id with
    | some m, some cid =>
      if m = "" ∨ cid = "" then
        appendSendError s errNow
      else
        { s with
          conversationId := some cid
          messages := s.messages ++
            [ { role := Role.assistant, content := m, timestamp := data.timestamp } ]
          isLoading := false }
    | some _, none => appendSendError s errNow
    | none, _ => appendSendError s errNow

/-- The whole of `sendMessage`: the synchronous prefix, then the resolution
of the request.  The second component of the result is the request that was
sent, `none` when the empty-input guard fired.  `now` stands for the
wall-clock reads (`new Date().toISOString()`). -/
def sendMessage (s : ChatState) (now : Int) (o : SendOutcome) :
    ChatState × Option ChatRequest :=
  match sendMessagePre s now with
  | none => (s, none)
  | some (s1, req) => (resolveSend s1 now o, some req)

/-! ## Slack landing page (`SlackIntegration.tsx`) -/

/-- The component state of `SlackIntegration` held in its three `useState`
hooks. -/
structure SlackState where
  installUrl : String
  isLoading : Bool
  error : Option String
deriving DecidableEq, Repr

/-- The initial state of the `SlackIntegration` component:
`useState<string>('')`, `useState(true)`, `useState<string | null>(null)`. -/
def initSlackState : SlackState :=
  { installUrl := "", isLoading := true, error := none }

/-- The parsed JSON body of a `/api/slack/install` response
(`InstallUrlResponse` of `SlackIntegration.tsx`). -/
structure InstallUrlResponse where
  install_url : String
deriving DecidableEq, Repr

/-- Outcome of the `fetch` in `fetchInstallUrl`. -/
inductive InstallOutcome where
  | networkError
  | httpError (status : Nat)
  | ok (data : InstallUrlResponse)
deriving DecidableEq, Repr

/-- The fixed localized error text set by the catch branch of
`fetchInstallUrl`. -/
def slackErrorText : String :=
  "インストールURLの取得に失敗しました。"

/-- `fetchInstallUrl` of `SlackIntegration.tsx` as a state transformer: on
success store `data.install_url`; on any failure set the fixed error text;
in every case the finally branch clears the loading flag. -/
def fetchInstallUrl (s : SlackState) (o : InstallOutcome) : SlackState :=
  match o with
  | InstallOutcome.ok data => { s with installUrl := data.install_url, isLoading := false }
  | InstallOutcome.networkError => { s with error := some slackErrorText, isLoading := false }
  | InstallOutcome.httpError _ => { s with error := some slackErrorText, isLoading := false }

/-- What the `SlackIntegration` render function produces: the loading
placeholder, the error screen showing the error text, or the ready page
whose anchor's `href` is the `installUrl` state. -/
inductive SlackView where
  | loadingView
  | errorView (msg : String)
  | readyView (href : String)
deriving DecidableEq, Repr

/-- The three early-return branches of the `SlackIntegration` render
function: loading wins, then a non-null error, else the ready page with
`<a href={installUrl}>`. -/
def renderSlack (s : SlackState) : SlackView :=
  if s.isLoading then
    SlackView.loadingView
  else
    match s.error with
    | some e => SlackView.errorView e
    | none => SlackView.readyView s.installUrl

/-! ## Auxiliary predicates used in the claims -/

/-- Timestamp comparison lifted to optional timestamps: both present and
non-decreasing, vacuously true when either is absent. -/
def tsLe : Option Int → Option Int → Prop
  | some a, some b => a ≤ b
  | some _, none => True
  | none, _ => True

/-- A message list is in non-decreasing timestamp order. -/
def sortedByTimestamp (ms : List Message) : Prop :=
  List.Pairwise (fun a b => tsLe a.timestamp b.timestamp) ms

/-! ## Claims -/

/-- Helper: flattening a list of rows that is pairwise non-decreasing by
timestamp yields a message list in non-decreasing timestamp order. -/
theorem formatMessages_sorted {l : List HistoryRow} (h : List.Pairwise rowLe l) :
    sortedByTimestamp (formatMessages l) := by
  unfold sortedByTimestamp formatMessages
  rw [List.pairwise_flatten]
  refine ⟨?_, ?_⟩
  · intro l' hl'
    simp only [List.mem_map] at hl'
    obtain ⟨r, _, rfl⟩ := hl'
    simp [rowToMessages, tsLe]
  · rw [List.pairwise_map]
    refine h.imp ?_
    intro a b hab x hx y hy
    simp only [rowToMessages, List.mem_cons, List.mem_singleton, List.not_mem_nil,
      or_false] at hx hy
    rcases hx with rfl | rfl <;> rcases hy with rfl | rfl <;>
      simpa [tsLe] using hab

/-- C1: for every array of history rows, in any server-side order, the
message list produced by `fetchChatHistory` is in non-decreasing timestamp
order: the rows are sorted ascending by timestamp before being flattened
into messages. -/
theorem fetchChatHistory_messages_sorted (s : ChatState) (rows : List HistoryRow) :
    sortedByTimestamp
      (fetchChatHistory s (FetchHistoryOutcome.ok (HistoryBody.arr rows))).messages := by
  show sortedByTimestamp (formatMessages (sortRows rows))
  exact formatMessages_sorted (List.sorted_insertionSort rowLe rows)

/-- C2: `fetchChatHistory` flattens each history row into a user message
followed by an assistant message and sets the conversation id from the last
sorted row: on the two rows `{user "A", assistant "B", ts 1, cid "x"}` and
`{user "C", assistant "D", ts 2, cid "x"}` it produces, from any prior
state, exactly the four messages A, B, C, D in that order and conversation
id `"x"`. -/
theorem fetchChatHistory_two_rows (s : ChatState) :
    fetchChatHistory s (FetchHistoryOutcome.ok (HistoryBody.arr
      [ { user_message := "A", assistant_message := "B", timestamp := 1,
          conversation_id := "x" },
        { user_message := "C", assistant_message := "D", timestamp := 2,
          conversation_id := "x" } ])) =
    { s with
      messages :=
        [ { role := Role.user, content := "A", timestamp := some 1 },
          { role := Role.assistant, content := "B", timestamp := some 1 },
          { role := Role.user, content := "C", timestamp := some 2 },
          { role := Role.assistant, content := "D", timestamp := some 2 } ],
      conversationId := some "x" } := by
  rfl

/-- C3: when the trimmed input is empty, `sendMessage` issues no request and
leaves the whole state unchanged. -/
theorem sendMessage_empty_input (s : ChatState) (now : Int) (o : SendOutcome)
    (h : jsTrim s.input = "") :
    sendMessage s now o = (s, none) := by
  simp [sendMessage, sendMessagePre, h]

/-- Witness for C3 at the whitespace-only input `"  "`. -/
theorem sendMessage_empty_input_witness :
    sendMessage { initChatState with input := "  " } 0 SendOutcome.networkError =
      ({ initChatState with input := "  " }, none) :=
  sendMessage_empty_input _ 0 _ (by decide)

/-- C4: on a failed send (network error or non-2xx response) with non-empty
trimmed input, `sendMessage` appends exactly one assistant message whose
content is the fixed fallback text, leaves the conversation id unchanged,
and ends with the loading flag false. -/
theorem sendMessage_failure (s : ChatState) (now : Int) (o : SendOutcome)
    (hin : jsTrim s.input ≠ "")
    (hfail : o = SendOutcome.networkError ∨ ∃ st, o = SendOutcome.httpError st) :
    sendMessage s now o =
      ( { s with
          messages := s.messages ++
            [ { role := Role.user, content := s.input, timestamp := some now },
              { role := Role.assistant, content := fallbackText, timestamp := some now } ],
          input := ""
          isLoading := false },
        some { message := s.input, conversation_id := s.conversationId } ) := by
  rcases hfail with rfl | ⟨st, rfl⟩ <;>
    simp [sendMessage, sendMessagePre, hin, resolveSend, appendSendError]

/-- Witness for C4 at input `"hi"` and a network error. -/
theorem sendMessage_failure_witness :
    sendMessage { initChatState with input := "hi" } 0 SendOutcome.networkError =
      ( { messages :=
            [ { role := Role.user, content := "hi", timestamp := some 0 },
              { role := Role.assistant, content := fallbackText, timestamp := some 0 } ],
          input := ""
          isLoading := false
          conversationId := none },
        some { message := "hi", conversation_id := none } ) :=
  sendMessage_failure { initChatState with input := "hi" } 0 SendOutcome.networkError
    (by decide) (Or.inl rfl)

/-- C5: on a successful install-url fetch, the rendered anchor's `href` is
exactly the `install_url` field of the response, with no transformation. -/
theorem slack_href_matches_install_url (data : InstallUrlResponse) :
    renderSlack (fetchInstallUrl initSlackState (InstallOutcome.ok data)) =
      SlackView.readyView data.install_url := rfl

/-- C6 counterexample: a `/api/chat` response missing the required field
`timestamp` (with `message` and `conversation_id` present and non-empty) is
NOT treated as an error: `sendMessage` appends the assistant reply `"hi"`
(no message in the result carries the fallback text) and it does update the
conversation id. -/
theorem sendMessage_missing_timestamp_not_error :
    (sendMessage { initChatState with input := "hello" } 0
        (SendOutcome.ok
          { conversation_id := some "c", message := some "hi", timestamp := none })).1 =
      { messages :=
          [ { role := Role.user, content := "hello", timestamp := some 0 },
            { role := Role.assistant, content := "hi", timestamp := none } ],
        input := ""
        isLoading := false
        conversationId := some "c" } ∧
    List.filter (fun m => m.content == fallbackText)
      (sendMessage { initChatState with input := "hello" } 0
        (SendOutcome.ok
          { conversation_id := some "c", message := some "hi",
            timestamp := none })).1.messages = [] := by
  exact ⟨rfl, rfl⟩

/-- C6 amended: a response whose `message` or `conversation_id` field is
missing is treated as an error — `sendMessage` appends the fixed fallback
assistant message and leaves the conversation id unchanged (the `timestamp`
field is never checked). -/
theorem sendMessage_missing_fields_error (s : ChatState) (now : Int) (data : ChatResponse)
    (hin : jsTrim s.input ≠ "")
    (hmiss : data.message = none ∨ data.conversation_id = none) :
    sendMessage s now (SendOutcome.ok data) =
      ( { s with
          messages := s.messages ++
            [ { role := Role.user, content := s.input, timestamp := some now },
              { role := Role.assistant, content := fallbackText, timestamp := some now } ],
          input := ""
          isLoading := false },
        some { message := s.input, conversation_id := s.conversationId } ) := by
  obtain ⟨cid, m, ts⟩ := data
  rcases hmiss with rfl | rfl
  · simp [sendMessage, sendMessagePre, hin, resolveSend, appendSendError]
  · cases m <;> simp [sendMessage, sendMessagePre, hin, resolveSend, appendSendError]

/-- Witness for the amended C6 at input `"hi"` and a response missing its
`message` field. -/
theorem sendMessage_missing_fields_error_witness :
    sendMessage { initChatState with input := "hi" } 0
        (SendOutcome.ok
          { conversation_id := some "c", message := none, timestamp := some 1 }) =
      ( { messages :=
            [ { role := Role.user, content := "hi", timestamp := some 0 },
              { role := Role.assistant, content := fallbackText, timestamp := some 0 } ],
          input := ""
          isLoading := false
          conversationId := none },
        some { message := "hi", conversation_id := none } ) :=
  sendMessage_missing_fields_error { initChatState with input := "hi" } 0
    { conversation_id := some "c", message := none, timestamp := some 1 }
    (by decide) (Or.inl rfl)

/-- C7: the client accepts only a bare-array history body; on any non-array
JSON body (such as the documented object with a `conversations` key)
`fetchChatHistory` returns early and the whole state — messages and
conversation id included — is unchanged. -/
theorem fetchChatHistory_nonArray (s : ChatState) :
    fetchChatHistory s (FetchHistoryOutcome.ok HistoryBody.nonArray) = s := rfl

/-- C8: on non-empty (after trim) input, before the request resolves
`sendMessage` has appended exactly one user message carrying the raw input,
cleared the input field and set the loading flag; the request body carries
the raw (untrimmed) input and the current conversation id. -/
theorem sendMessage_nonempty_input (s : ChatState) (now : Int) (o : SendOutcome)
    (hin : jsTrim s.input ≠ "") :
    sendMessagePre s now =
      some
        ( { s with
            messages := s.messages ++
              [ { role := Role.user, content := s.input, timestamp := some now } ],
            input := ""
            isLoading := true },
          { message := s.input, conversation_id := s.conversationId } ) ∧
    (sendMessage s now o).2 =
      some { message := s.input, conversation_id := s.conversationId } := by
  refine ⟨?_, ?_⟩
  · simp [sendMessagePre, hin]
  · simp [sendMessage, sendMessagePre, hin]

/-- Witness for C8 at input `"hi"`. -/
theorem sendMessage_nonempty_input_witness :
    sendMessagePre { initChatState with input := "hi" } 0 =
      some
        ( { messages := [ { role := Role.user, content := "hi", timestamp := some 0 } ],
            input := ""
            isLoading := true
            conversationId := none },
          { message := "hi", conversation_id := none } ) ∧
    (sendMessage { initChatState with input := "hi" } 0 SendOutcome.networkError).2 =
      some { message := "hi", conversation_id := none } :=
  sendMessage_nonempty_input { initChatState with input := "hi" } 0
    SendOutcome.networkError (by decide)

/-- C9: the Slack landing page state machine.  The fetch (performed once on
mount, from the initial loading state) always ends with the loading flag
false — indeed every transition of `fetchInstallUrl` ends with it false, so
it is never set again — and reaches exactly one of two terminal screens: on
success the error is null and the ready page with the install link is
rendered; on any failure the fixed error text is stored and rendered. -/
theorem slack_state_machine (o : InstallOutcome) :
    (∀ s : SlackState, (fetchInstallUrl s o).isLoading = false) ∧
    (match o with
     | InstallOutcome.ok data =>
         (fetchInstallUrl initSlackState o).error = none ∧
         renderSlack (fetchInstallUrl initSlackState o) = SlackView.readyView data.install_url
     | InstallOutcome.networkError =>
         (fetchInstallUrl initSlackState o).error = some slackErrorText ∧
         renderSlack (fetchInstallUrl initSlackState o) = SlackView.errorView slackErrorText
     | InstallOutcome.httpError _ =>
         (fetchInstallUrl initSlackState o).error = some slackErrorText ∧
         renderSlack (fetchInstallUrl initSlackState o) = SlackView.errorView slackErrorText) := by
  cases o <;> exact ⟨fun s => rfl, rfl, rfl⟩

/-- C10: a successful HTTP response whose `message` or `conversation_id`
field is the empty string is rejected by the falsy check: `sendMessage`
appends the fixed fallback assistant message and leaves the conversation id
unchanged. -/
theorem sendMessage_empty_string_fields_error (s : ChatState) (now : Int)
    (data : ChatResponse) (hin : jsTrim s.input ≠ "")
    (hempty : data.message = some "" ∨ data.conversation_id = some "") :
    sendMessage s now (SendOutcome.ok data) =
      ( { s with
          messages := s.messages ++
            [ { role := Role.user, content := s.input, timestamp := some now },
              { role := Role.assistant, content := fallbackText, timestamp := some now } ],
          input := ""
          isLoading := false },
        some { message := s.input, conversation_id := s.conversationId } ) := by
  obtain ⟨cid, m, ts⟩ := data
  rcases hempty with rfl | rfl
  · cases cid <;> simp [sendMessage, sendMessagePre, hin, resolveSend, appendSendError]
  · cases m <;> simp [sendMessage, sendMessagePre, hin, resolveSend, appendSendError]

/-- Witness for C10 at input `"hi"` and a response whose `message` is the
empty string. -/
theorem sendMessage_empty_string_fields_error_witness :
    sendMessage { initChatState with input := "hi" } 0
        (SendOutcome.ok
          { conversation_id := some "c", message := some "", timestamp := some 1 }) =
      ( { messages :=
            [ { role := Role.user, content := "hi", timestamp := some 0 },
              { role := Role.assistant, content := fallbackText, timestamp := some 0 } ],
          input := ""
          isLoading := false
          conversationId := none },
        some { message := "hi", conversation_id := none } ) :=
  sendMessage_empty_string_fields_error { initChatState with input := "hi" } 0
    { conversation_id := some "c", message := some "", timestamp := some 1 }
    (by decide) (Or.inl rfl)
